import Mathlib

/-!
Verification of the PNG-to-SVG conversion orchestrator (`png_to_svg.py`).

The Python function `png_to_svg(input_file, output_file=None, keep_temp_files=False)`
is embedded as a pure state-passing function over an explicit filesystem
(an association list from path strings to entries) together with an
environment of oracles standing for the collaborators the script calls out
to: the image-decoding library (decode, convert-to-grayscale, BMP encoding),
the external tracing tool (exit status and the bytes it writes at the output
path), the scratch-directory allocator (the fresh name `mkdtemp` would pick),
and the possibility that the cleanup operations `os.remove` / `os.rmdir`
fail (e.g. for permissions).  Python exceptions become an explicit error
type; `print` output is collected in a list.
-/

set_option autoImplicit false

/-- A decoded raster image as PIL presents it: a color `mode` string
(for instance "L" for single-channel grayscale, "RGB" for color) and
abstract pixel data. -/
structure Image where
  mode : String
  data : List Nat
deriving DecidableEq, Repr

/-- A filesystem entry: a regular file with raw byte contents, or a directory. -/
inductive Entry where
  | file (contents : List Nat)
  | dir
deriving DecidableEq, Repr

/-- The filesystem: an association list from absolute path strings to entries.
The head entry for a path shadows any later ones. -/
abbrev FS := List (String × Entry)

/-- Look a path up in the filesystem. -/
def fsLookup : FS → String → Option Entry
  | [], _ => none
  | (q, e) :: rest, p => if p = q then some e else fsLookup rest p

/-- Delete every entry at the given path. -/
def fsErase : FS → String → FS
  | [], _ => []
  | (q, e) :: rest, p => if q = p then fsErase rest p else (q, e) :: fsErase rest p

/-- Create or overwrite the entry at the given path. -/
def fsSet (fs : FS) (p : String) (e : Entry) : FS :=
  (p, e) :: fsErase fs p

/-- Embedding of `os.path.exists`. -/
def osPathExists (fs : FS) (p : String) : Bool :=
  (fsLookup fs p).isSome

/-- Boolean string-prefix test, spelled out over the character lists. -/
def strStartsWith (pre s : String) : Bool :=
  List.isPrefixOf pre.data s.data

/-- Does the filesystem hold any entry strictly inside directory `d`? -/
def fsHasUnder : FS → String → Bool
  | [], _ => false
  | (q, _) :: rest, d => strStartsWith (d ++ "/") q || fsHasUnder rest d

/-- Embedding of `os.path.join` for a directory without a trailing separator
and a relative member name, the only way the script uses it. -/
def joinPath (a b : String) : String :=
  a ++ "/" ++ b

/-- Index of the last occurrence of `c`, or `-1` when absent: the semantics
of Python's `str.rfind` restricted to a single-character needle. -/
def strRfind : List Char → Char → Int
  | [], _ => -1
  | a :: rest, c =>
    let r := strRfind rest c
    if 0 ≤ r then r + 1
    else if a = c then 0 else -1

/-- CPython's `posixpath.splitext` on the character list: split at the last
dot, provided it lies after the last path separator and the basename up to
that dot is not made of dots only (so dotfiles keep their name whole). -/
def splitextChars (cs : List Char) : List Char × List Char :=
  let sepIndex := strRfind cs '/'
  let dotIndex := strRfind cs '.'
  if sepIndex < dotIndex then
    if ((cs.drop (sepIndex + 1).toNat).take (dotIndex - sepIndex - 1).toNat).all
        (fun c => c = '.') then
      (cs, [])
    else
      (cs.take dotIndex.toNat, cs.drop dotIndex.toNat)
  else (cs, [])

/-- Embedding of `os.path.splitext`. -/
def splitext (s : String) : String × String :=
  let r := splitextChars s.data
  (String.mk r.1, String.mk r.2)

/-- The Python exceptions the script can raise, with their payloads. -/
inductive PyError where
  | fileNotFoundError (msg : String)
  | isADirectoryError (msg : String)
  | unidentifiedImageError (msg : String)
  | calledProcessError (returncode : Nat)
  | osError (msg : String)
deriving DecidableEq, Repr

/-- The text used when an error is interpolated into a printed message. -/
def PyError.text : PyError → String
  | .fileNotFoundError m => m
  | .isADirectoryError m => m
  | .unidentifiedImageError m => m
  | .calledProcessError rc => "Command returned non-zero exit status " ++ toString rc
  | .osError m => m

/-- Outcome of one run of the external tracing tool on the bitmap bytes it
reads: its exit status, and the bytes it leaves at the requested output path
(`none` when it writes nothing there; a failing run may still leave partial
output). -/
structure PotraceOut where
  exit : Nat
  output : Option (List Nat)
deriving DecidableEq, Repr

/-- The execution environment: the fresh scratch-directory name `mkdtemp`
allocates, the image-library collaborator (decode bytes, convert an image to
grayscale, serialize an image as BMP bytes), whether the `potrace` executable
is installed and how it behaves, and which cleanup operations fail. -/
structure Env where
  tempDir : String
  decode : List Nat → Option Image
  convertL : Image → Image
  encodeBMP : Image → List Nat
  potraceInstalled : Bool
  potrace : List Nat → PotraceOut
  removeFails : String → Bool
  rmdirFails : String → Bool

/-- Embedding of `Image.open(path)`: a missing path raises
`FileNotFoundError`, a directory raises `IsADirectoryError` (the `open`
call fails before PIL sees any bytes), and undecodable bytes raise PIL's
`UnidentifiedImageError`. -/
def openImage (env : Env) (fs : FS) (p : String) : Except PyError Image :=
  match fsLookup fs p with
  | none => .error (.fileNotFoundError ("No such file or directory: " ++ p))
  | some .dir => .error (.isADirectoryError ("Is a directory: " ++ p))
  | some (.file bs) =>
    match env.decode bs with
    | none => .error (.unidentifiedImageError ("cannot identify image file " ++ p))
    | some img => .ok img

/-- Lines 79-80: `if img.mode != 'L': img = img.convert('L')`. -/
def normalizeGray (env : Env) (img : Image) : Image :=
  if img.mode ≠ "L" then env.convertL img else img

/-- Diagnostic text of the `FileNotFoundError` raised by `subprocess.run`
when the `potrace` executable is absent from the environment. -/
def potraceMissingMsg : String :=
  "Errno 2 No such file or directory: potrace"

/-- Embedding of `os.remove`: deletes the file unless the environment makes
the deletion fail (e.g. permissions). -/
def osRemove (env : Env) (fs : FS) (p : String) : Except PyError FS :=
  if env.removeFails p then .error (.osError ("Permission denied: " ++ p))
  else .ok (fsErase fs p)

/-- Embedding of `os.rmdir`: fails when the directory still has entries
inside it, or when the environment makes the call fail. -/
def osRmdir (env : Env) (fs : FS) (p : String) : Except PyError FS :=
  if fsHasUnder fs p then .error (.osError ("Directory not empty: " ++ p))
  else if env.rmdirFails p then .error (.osError ("Permission denied: " ++ p))
  else .ok (fsErase fs p)

/-- Observable outcome of the `try` body (lines 74-94): the filesystem after
it, the lines it printed, the image passed to `img.save` when execution got
that far, how many times the external tool was invoked, and the returned
path or raised exception. -/
structure BodyOut where
  fs : FS
  out : List String
  persisted : Option Image
  toolCalls : Nat
  result : Except PyError String
deriving Repr

/-- Lines 74-94 of `png_to_svg`: decode the input, normalize to grayscale,
save the bitmap under the fixed name `temp.bmp` in the scratch directory,
run `potrace --svg --output <output_file> <bmp_path>` with `check=True`,
print the success message and return the output path. -/
def tryBody (env : Env) (fs1 : FS) (input_file output_file temp_dir : String) : BodyOut :=
  match openImage env fs1 input_file with
  | .error e => ⟨fs1, [], none, 0, .error e⟩
  | .ok img0 =>
    let img := normalizeGray env img0
    let bmp_path := joinPath temp_dir "temp.bmp"
    let fs2 := fsSet fs1 bmp_path (.file (env.encodeBMP img))
    if env.potraceInstalled then
      let contents := match fsLookup fs2 bmp_path with
        | some (.file bs) => bs
        | _ => []
      let pr := env.potrace contents
      let fs3 := match pr.output with
        | some bs => fsSet fs2 output_file (.file bs)
        | none => fs2
      if pr.exit = 0 then
        ⟨fs3, ["Successfully converted " ++ input_file ++ " to " ++ output_file],
          some img, 1, .ok output_file⟩
      else
        ⟨fs3, [], some img, 1, .error (.calledProcessError pr.exit)⟩
    else
      ⟨fs2, [], some img, 0, .error (.fileNotFoundError potraceMissingMsg)⟩

/-- Lines 102-109, the body of the `finally` block when temporary files are
not kept: remove `temp.bmp` if it exists, then remove the scratch directory;
any exception in this is caught and turned into a printed warning.  Returns
the resulting filesystem and the warning lines. -/
def cleanupTemp (env : Env) (fs : FS) (temp_dir : String) : FS × List String :=
  let bmp_path := joinPath temp_dir "temp.bmp"
  match (if osPathExists fs bmp_path then osRemove env fs bmp_path else .ok fs) with
  | .error e => (fs, ["Warning: Could not clean up temporary files: " ++ e.text])
  | .ok fsa =>
    match osRmdir env fsa temp_dir with
    | .error e => (fsa, ["Warning: Could not clean up temporary files: " ++ e.text])
    | .ok fsb => (fsb, [])

/-- Lines 68-69: default the output path to the input path with its
extension replaced by `.svg`. -/
def resolveOutput (input_file : String) (output_file : Option String) : String :=
  match output_file with
  | some p => p
  | none => (splitext input_file).1 ++ ".svg"

/-- Observable outcome of one call to `png_to_svg`: the returned path or
raised exception, the final filesystem, everything printed, whether the
scratch directory was ever created, the image persisted as the intermediate
bitmap (when execution got that far), and the number of external-tool
invocations. -/
structure RunResult where
  result : Except PyError String
  fs : FS
  stdout : List String
  tempDirCreated : Bool
  persisted : Option Image
  toolCalls : Nat
deriving Repr

/-- The embedding of `png_to_svg(input_file, output_file, keep_temp_files)`:
validate that the input path exists, resolve the output path, create the
scratch directory, run the `try` body, print the error message when the body
raised, then (unless temporaries are kept) run the cleanup, and surface the
body's outcome. -/
def png_to_svg (env : Env) (fs0 : FS) (input_file : String)
    (output_file : Option String) (keep_temp_files : Bool) : RunResult :=
  if osPathExists fs0 input_file = false then
    ⟨.error (.fileNotFoundError ("Input file not found: " ++ input_file)),
      fs0, [], false, none, 0⟩
  else
    let out := resolveOutput input_file output_file
    let temp_dir := env.tempDir
    let fs1 := fsSet fs0 temp_dir .dir
    let b := tryBody env fs1 input_file out temp_dir
    let printed := match b.result with
      | .ok _ => b.out
      | .error e => b.out ++ ["Error during conversion: " ++ e.text]
    if keep_temp_files then
      ⟨b.result, b.fs, printed, true, b.persisted, b.toolCalls⟩
    else
      let c := cleanupTemp env b.fs temp_dir
      ⟨b.result, c.1, printed ++ c.2, true, b.persisted, b.toolCalls⟩

deriving instance DecidableEq for Except

/-- A grayscale test image. -/
def imgL : Image := ⟨"L", [7, 8, 9]⟩

/-- A color test image. -/
def imgRGB : Image := ⟨"RGB", [1, 2, 3]⟩

/-- A concrete well-behaved environment for witnesses: bytes `[10]` decode
to a color image, bytes `[7]` to a grayscale one, the tool is installed and
succeeds writing `[42]`, and cleanup never fails. -/
def testEnv : Env where
  tempDir := "/tmp/t1"
  decode := fun bs =>
    if bs = [10] then some imgRGB else if bs = [7] then some imgL else none
  convertL := fun i => ⟨"L", i.data⟩
  encodeBMP := fun i => 100 :: i.data
  potraceInstalled := true
  potrace := fun _ => ⟨0, some [42]⟩
  removeFails := fun _ => false
  rmdirFails := fun _ => false

/-- A concrete filesystem with one decodable color input file. -/
def testFS : FS := [("photo.png", .file [10])]

deriving instance DecidableEq for RunResult

/-- Side conditions a real run satisfies: cleanup operations succeed, the
scratch directory `mkdtemp` picked is fresh (it, and everything under it,
is absent from the starting filesystem), and the resolved output path does
not collide with the scratch workspace. -/
abbrev CleanupOK (env : Env) (fs0 : FS) (out : String) : Prop :=
  env.removeFails (joinPath env.tempDir "temp.bmp") = false ∧
  env.rmdirFails env.tempDir = false ∧
  fsLookup fs0 env.tempDir = none ∧
  fsLookup fs0 (joinPath env.tempDir "temp.bmp") = none ∧
  fsHasUnder fs0 env.tempDir = false ∧
  strStartsWith (env.tempDir ++ "/") out = false ∧
  out ≠ env.tempDir

/-- Is this outcome the subprocess failure that carries an exit status
(Python's `CalledProcessError`, the spec's `ExternalToolError`)? -/
def isCalledProcessError : Except PyError String → Bool
  | .error (.calledProcessError _) => true
  | _ => false

theorem fsLookup_fsErase_self (fs : FS) (p : String) :
    fsLookup (fsErase fs p) p = none := by
  induction fs with
  | nil => rfl
  | cons hd tl ih =>
    obtain ⟨q, e⟩ := hd
    by_cases h : q = p
    · simp [fsErase, h, ih]
    · simp [fsErase, fsLookup, h, Ne.symm h, ih]

theorem fsLookup_fsErase_ne (fs : FS) (p q : String) (h : q ≠ p) :
    fsLookup (fsErase fs p) q = fsLookup fs q := by
  induction fs with
  | nil => rfl
  | cons hd tl ih =>
    obtain ⟨r, e⟩ := hd
    by_cases hr : r = p
    · subst hr
      simp [fsErase, fsLookup, h, ih]
    · by_cases hq : q = r <;> simp [fsErase, fsLookup, hr, hq, ih]

theorem fsLookup_fsSet_self (fs : FS) (p : String) (e : Entry) :
    fsLookup (fsSet fs p e) p = some e := by
  simp [fsSet, fsLookup]

theorem fsLookup_fsSet_ne (fs : FS) (p q : String) (e : Entry) (h : q ≠ p) :
    fsLookup (fsSet fs p e) q = fsLookup fs q := by
  simp [fsSet, fsLookup, h, fsLookup_fsErase_ne fs p q h]

theorem fsErase_noop (fs : FS) (p : String) (h : fsLookup fs p = none) :
    fsErase fs p = fs := by
  induction fs with
  | nil => rfl
  | cons hd tl ih =>
    obtain ⟨q, e⟩ := hd
    by_cases hq : p = q
    · simp [fsLookup, hq] at h
    · simp only [fsLookup, if_neg hq] at h
      simp [fsErase, Ne.symm hq, ih h]

theorem fsErase_idem (fs : FS) (p : String) :
    fsErase (fsErase fs p) p = fsErase fs p :=
  fsErase_noop _ _ (fsLookup_fsErase_self fs p)

theorem fsErase_comm (fs : FS) (p q : String) :
    fsErase (fsErase fs p) q = fsErase (fsErase fs q) p := by
  induction fs with
  | nil => rfl
  | cons hd tl ih =>
    obtain ⟨r, e⟩ := hd
    by_cases hp : r = p <;> by_cases hq : r = q
    · simp only [fsErase, if_pos hp, if_pos hq]; exact ih
    · simp only [fsErase, if_pos hp, if_neg hq]; exact ih
    · simp only [fsErase, if_neg hp, if_pos hq]; exact ih
    · simp only [fsErase, if_neg hp, if_neg hq]; rw [ih]

theorem fsErase_fsSet_same (fs : FS) (p : String) (e : Entry) :
    fsErase (fsSet fs p e) p = fsErase fs p := by
  simp [fsSet, fsErase, fsErase_idem]

theorem fsErase_fsSet_ne (fs : FS) (p q : String) (e : Entry) (h : p ≠ q) :
    fsErase (fsSet fs p e) q = fsSet (fsErase fs q) p e := by
  simp [fsSet, fsErase, h, fsErase_comm]

theorem fsHasUnder_fsErase (fs : FS) (p d : String)
    (h : fsHasUnder fs d = false) : fsHasUnder (fsErase fs p) d = false := by
  induction fs with
  | nil => rfl
  | cons hd tl ih =>
    obtain ⟨q, e⟩ := hd
    simp only [fsHasUnder, Bool.or_eq_false_iff] at h
    by_cases hq : q = p
    · simp [fsErase, hq, ih h.2]
    · simp [fsErase, hq, fsHasUnder, h.1, ih h.2]

theorem fsHasUnder_fsSet (fs : FS) (p d : String) (e : Entry)
    (h1 : fsHasUnder fs d = false) (h2 : strStartsWith (d ++ "/") p = false) :
    fsHasUnder (fsSet fs p e) d = false := by
  simp [fsSet, fsHasUnder, h2, fsHasUnder_fsErase fs p d h1]

theorem strStartsWith_slash_self (d : String) :
    strStartsWith (d ++ "/") d = false := by
  rw [Bool.eq_false_iff]
  intro h
  have h2 := List.isPrefixOf_iff_prefix.mp h
  have h3 := h2.length_le
  simp [String.data_append] at h3

theorem strStartsWith_joinPath (d s : String) :
    strStartsWith (d ++ "/") (joinPath d s) = true := by
  apply List.isPrefixOf_iff_prefix.mpr
  simp only [joinPath, String.data_append]
  exact List.prefix_append _ _

theorem joinPath_ne_base (d s : String) : joinPath d s ≠ d := by
  intro h
  have h2 := congrArg String.length h
  simp only [joinPath, String.length_append] at h2
  have h1 : "/".length = 1 := rfl
  rw [h1] at h2
  omega

theorem openImage_file {env : Env} {fs : FS} {p : String} {bs : List Nat} {img : Image}
    (hf : fsLookup fs p = some (.file bs)) (hd : env.decode bs = some img) :
    openImage env fs p = .ok img := by
  simp [openImage, hf, hd]

theorem openImage_undecodable {env : Env} {fs : FS} {p : String} {bs : List Nat}
    (hf : fsLookup fs p = some (.file bs)) (hd : env.decode bs = none) :
    openImage env fs p = .error (.unidentifiedImageError ("cannot identify image file " ++ p)) := by
  simp [openImage, hf, hd]

theorem openImage_dir {env : Env} {fs : FS} {p : String}
    (hf : fsLookup fs p = some .dir) :
    openImage env fs p = .error (.isADirectoryError ("Is a directory: " ++ p)) := by
  simp [openImage, hf]

theorem ne_of_lookup_some_none {fs : FS} {p q : String} {e : Entry}
    (h1 : fsLookup fs p = some e) (h2 : fsLookup fs q = none) : p ≠ q := by
  intro h
  rw [h, h2] at h1
  cases h1

theorem tryBody_result_ok (env : Env) (fs1 : FS) (i out td p : String)
    (h : (tryBody env fs1 i out td).result = .ok p) : p = out := by
  simp only [tryBody] at h
  split at h
  · simp at h
  · split at h
    · split at h <;> simp_all
    · simp at h

theorem tryBody_frame (env : Env) (fs1 : FS) (i out td q : String)
    (h1 : q ≠ joinPath td "temp.bmp") (h2 : q ≠ out) :
    fsLookup (tryBody env fs1 i out td).fs q = fsLookup fs1 q := by
  simp only [tryBody]
  split
  · rfl
  · split
    · split
      · split
        · simp only
          rw [fsLookup_fsSet_ne _ _ _ _ h2, fsLookup_fsSet_ne _ _ _ _ h1]
        · simp only
          rw [fsLookup_fsSet_ne _ _ _ _ h1]
      · split
        · simp only
          rw [fsLookup_fsSet_ne _ _ _ _ h2, fsLookup_fsSet_ne _ _ _ _ h1]
        · simp only
          rw [fsLookup_fsSet_ne _ _ _ _ h1]
    · simp only
      rw [fsLookup_fsSet_ne _ _ _ _ h1]

theorem tryBody_ok_eq (env : Env) (fs1 : FS) (i out td : String) (img0 : Image)
    (hop : openImage env fs1 i = .ok img0) :
    tryBody env fs1 i out td =
      (let img := normalizeGray env img0
       let fs2 := fsSet fs1 (joinPath td "temp.bmp") (.file (env.encodeBMP img))
       if env.potraceInstalled then
         let pr := env.potrace (env.encodeBMP img)
         let fs3 := match pr.output with
           | some bs => fsSet fs2 out (.file bs)
           | none => fs2
         if pr.exit = 0 then
           ⟨fs3, ["Successfully converted " ++ i ++ " to " ++ out], some img, 1, .ok out⟩
         else ⟨fs3, [], some img, 1, .error (.calledProcessError pr.exit)⟩
       else ⟨fs2, [], some img, 0, .error (.fileNotFoundError potraceMissingMsg)⟩) := by
  simp [tryBody, hop, fsLookup_fsSet_self]

theorem tryBody_persisted_bmp (env : Env) (fs1 : FS) (i out td : String) (img : Image)
    (hout : out ≠ joinPath td "temp.bmp")
    (h : (tryBody env fs1 i out td).persisted = some img) :
    fsLookup (tryBody env fs1 i out td).fs (joinPath td "temp.bmp") =
      some (.file (env.encodeBMP img)) := by
  cases hop : openImage env fs1 i with
  | error e => simp [tryBody, hop] at h
  | ok img0 =>
    rw [tryBody_ok_eq env fs1 i out td img0 hop] at h ⊢
    simp only at h ⊢
    by_cases hinst : env.potraceInstalled = true
    · rcases hpo : env.potrace (env.encodeBMP (normalizeGray env img0)) with ⟨ec, wout⟩
      simp only [hinst, hpo, if_true] at h ⊢
      cases wout <;> by_cases hec : ec = 0 <;>
        simp only [hec, if_true, if_false, reduceIte] at h ⊢ <;>
        simp only [Option.some.injEq] at h <;>
        rw [← h]
      · rw [fsLookup_fsSet_self]
      · rw [fsLookup_fsSet_self]
      · rw [fsLookup_fsSet_ne _ _ _ _ (Ne.symm hout), fsLookup_fsSet_self]
      · rw [fsLookup_fsSet_ne _ _ _ _ (Ne.symm hout), fsLookup_fsSet_self]
    · rw [if_neg hinst] at h ⊢
      simp only [Option.some.injEq] at h
      rw [← h, fsLookup_fsSet_self]

theorem tryBody_persisted_none (env : Env) (fs1 : FS) (i out td : String)
    (h : (tryBody env fs1 i out td).persisted = none) :
    (tryBody env fs1 i out td).fs = fs1 := by
  simp only [tryBody] at h ⊢
  split at h
  · rfl
  · split at h
    · split at h <;> simp at h
    · simp at h

theorem tryBody_hasUnder (env : Env) (fs1 : FS) (i out td : String)
    (h1 : fsHasUnder fs1 td = false)
    (h2 : strStartsWith (td ++ "/") out = false) :
    fsHasUnder (fsErase (tryBody env fs1 i out td).fs (joinPath td "temp.bmp")) td = false := by
  have houtne : out ≠ joinPath td "temp.bmp" := by
    intro hh
    rw [hh, strStartsWith_joinPath] at h2
    cases h2
  cases hop : openImage env fs1 i with
  | error e =>
    simp only [tryBody, hop]
    exact fsHasUnder_fsErase _ _ _ h1
  | ok img0 =>
    have hbase : fsHasUnder
        (fsErase (fsSet fs1 (joinPath td "temp.bmp")
          (.file (env.encodeBMP (normalizeGray env img0))))
          (joinPath td "temp.bmp")) td = false := by
      rw [fsErase_fsSet_same]
      exact fsHasUnder_fsErase _ _ _ h1
    rw [tryBody_ok_eq env fs1 i out td img0 hop]
    simp only
    by_cases hinst : env.potraceInstalled = true
    · rcases hpo : env.potrace (env.encodeBMP (normalizeGray env img0)) with ⟨ec, wout⟩
      simp only [hinst, hpo, if_true]
      cases wout <;> by_cases hec : ec = 0 <;>
        simp only [hec, if_true, if_false, reduceIte]
      · exact hbase
      · exact hbase
      · rw [fsErase_fsSet_ne _ _ _ _ houtne]
        exact fsHasUnder_fsSet _ _ _ _ hbase h2
      · rw [fsErase_fsSet_ne _ _ _ _ houtne]
        exact fsHasUnder_fsSet _ _ _ _ hbase h2
    · simp only [hinst, if_false, Bool.not_eq_true]
      exact hbase

theorem cleanup_lookups (env : Env) (fs : FS) (td : String)
    (hrm : env.removeFails (joinPath td "temp.bmp") = false)
    (hrd : env.rmdirFails td = false)
    (hund : fsHasUnder (fsErase fs (joinPath td "temp.bmp")) td = false) :
    fsLookup (cleanupTemp env fs td).1 (joinPath td "temp.bmp") = none ∧
      fsLookup (cleanupTemp env fs td).1 td = none := by
  have hne : joinPath td "temp.bmp" ≠ td := joinPath_ne_base td "temp.bmp"
  by_cases hex : osPathExists fs (joinPath td "temp.bmp") = true
  · have hstep1 : (if osPathExists fs (joinPath td "temp.bmp") then
        osRemove env fs (joinPath td "temp.bmp") else .ok fs) =
        .ok (fsErase fs (joinPath td "temp.bmp")) := by
      simp [hex, osRemove, hrm]
    have hstep2 : osRmdir env (fsErase fs (joinPath td "temp.bmp")) td =
        .ok (fsErase (fsErase fs (joinPath td "temp.bmp")) td) := by
      simp [osRmdir, hund, hrd]
    simp only [cleanupTemp, hstep1, hstep2]
    constructor
    · rw [fsLookup_fsErase_ne _ _ _ hne, fsLookup_fsErase_self]
    · rw [fsLookup_fsErase_self]
  · have hex2 : osPathExists fs (joinPath td "temp.bmp") = false := by
      cases h : osPathExists fs (joinPath td "temp.bmp")
      · rfl
      · exact absurd h hex
    have hnone : fsLookup fs (joinPath td "temp.bmp") = none := by
      cases h : fsLookup fs (joinPath td "temp.bmp") with
      | none => rfl
      | some e => rw [osPathExists, h] at hex2; cases hex2
    have heq : fsErase fs (joinPath td "temp.bmp") = fs := fsErase_noop _ _ hnone
    rw [heq] at hund
    have hstep1 : (if osPathExists fs (joinPath td "temp.bmp") then
        osRemove env fs (joinPath td "temp.bmp") else .ok fs) = .ok fs := by
      simp [hex2]
    have hstep2 : osRmdir env fs td = .ok (fsErase fs td) := by
      simp [osRmdir, hund, hrd]
    simp only [cleanupTemp, hstep1, hstep2]
    constructor
    · rw [fsLookup_fsErase_ne _ _ _ hne, hnone]
    · rw [fsLookup_fsErase_self]

theorem tryBody_persisted_ok (env : Env) (fs1 : FS) (i out td : String) (img0 : Image)
    (hop : openImage env fs1 i = .ok img0) :
    (tryBody env fs1 i out td).persisted = some (normalizeGray env img0) := by
  rw [tryBody_ok_eq env fs1 i out td img0 hop]
  dsimp only
  by_cases hinst : env.potraceInstalled = true
  · rw [if_pos hinst]
    by_cases hec : (env.potrace (env.encodeBMP (normalizeGray env img0))).exit = 0
    · rw [if_pos hec]
    · rw [if_neg hec]
  · rw [if_neg hinst]

theorem cleanupTemp_frame (env : Env) (fs : FS) (td q : String)
    (h1 : q ≠ joinPath td "temp.bmp") (h2 : q ≠ td) :
    fsLookup (cleanupTemp env fs td).1 q = fsLookup fs q := by
  have hrem : ∀ fsa, (if osPathExists fs (joinPath td "temp.bmp")
      then osRemove env fs (joinPath td "temp.bmp") else .ok fs) = .ok fsa →
      fsLookup fsa q = fsLookup fs q := by
    intro fsa hstep
    by_cases hex : osPathExists fs (joinPath td "temp.bmp") = true
    · rw [if_pos hex] at hstep
      rw [osRemove] at hstep
      by_cases hrm : env.removeFails (joinPath td "temp.bmp") = true
      · rw [if_pos hrm] at hstep; cases hstep
      · rw [if_neg hrm] at hstep
        injection hstep with hh
        rw [← hh]
        exact fsLookup_fsErase_ne _ _ _ h1
    · rw [if_neg hex] at hstep
      injection hstep with hh
      rw [← hh]
  rw [cleanupTemp]
  cases hstep : (if osPathExists fs (joinPath td "temp.bmp")
      then osRemove env fs (joinPath td "temp.bmp") else .ok fs) with
  | error e => rfl
  | ok fsa =>
    have hfa := hrem fsa hstep
    dsimp only
    cases hrm : osRmdir env fsa td with
    | error e => exact hfa
    | ok fsb =>
      have hfb : fsb = fsErase fsa td := by
        rw [osRmdir] at hrm
        by_cases hu : fsHasUnder fsa td = true
        · rw [if_pos hu] at hrm; cases hrm
        · rw [if_neg hu] at hrm
          by_cases hrf : env.rmdirFails td = true
          · rw [if_pos hrf] at hrm; cases hrm
          · rw [if_neg hrf] at hrm
            injection hrm with hh
            exact hh.symm
      dsimp only
      rw [hfb, fsLookup_fsErase_ne _ _ _ h2, hfa]

theorem png_to_svg_components (env : Env) (fs0 : FS) (i : String) (o : Option String)
    (k : Bool) (hex : osPathExists fs0 i = true) :
    (png_to_svg env fs0 i o k).result =
      (tryBody env (fsSet fs0 env.tempDir .dir) i (resolveOutput i o) env.tempDir).result ∧
    (png_to_svg env fs0 i o k).persisted =
      (tryBody env (fsSet fs0 env.tempDir .dir) i (resolveOutput i o) env.tempDir).persisted ∧
    (png_to_svg env fs0 i o k).toolCalls =
      (tryBody env (fsSet fs0 env.tempDir .dir) i (resolveOutput i o) env.tempDir).toolCalls ∧
    (png_to_svg env fs0 i o k).tempDirCreated = true := by
  have hc : ¬ (osPathExists fs0 i = false) := by rw [hex]; simp
  rw [png_to_svg, if_neg hc]
  cases k <;> exact ⟨rfl, rfl, rfl, rfl⟩

theorem png_fs_keep (env : Env) (fs0 : FS) (i : String) (o : Option String)
    (hex : osPathExists fs0 i = true) :
    (png_to_svg env fs0 i o true).fs =
      (tryBody env (fsSet fs0 env.tempDir .dir) i (resolveOutput i o) env.tempDir).fs := by
  have hc : ¬ (osPathExists fs0 i = false) := by rw [hex]; simp
  rw [png_to_svg, if_neg hc]
  rfl

theorem png_fs_cleanup (env : Env) (fs0 : FS) (i : String) (o : Option String)
    (hex : osPathExists fs0 i = true) :
    (png_to_svg env fs0 i o false).fs =
      (cleanupTemp env
        (tryBody env (fsSet fs0 env.tempDir .dir) i (resolveOutput i o) env.tempDir).fs
        env.tempDir).1 := by
  have hc : ¬ (osPathExists fs0 i = false) := by rw [hex]; simp
  rw [png_to_svg, if_neg hc]
  rfl

theorem scratch_cleaned (env : Env) (fs0 : FS) (i : String) (o : Option String)
    (hok : CleanupOK env fs0 (resolveOutput i o))
    (hex : osPathExists fs0 i = true) :
    fsLookup (png_to_svg env fs0 i o false).fs (joinPath env.tempDir "temp.bmp") = none ∧
    fsLookup (png_to_svg env fs0 i o false).fs env.tempDir = none := by
  obtain ⟨hrm, hrd, htd, hbmp, hund, hout, houttd⟩ := hok
  have hund1 : fsHasUnder (fsSet fs0 env.tempDir .dir) env.tempDir = false :=
    fsHasUnder_fsSet _ _ _ _ hund (strStartsWith_slash_self _)
  have hb := tryBody_hasUnder env (fsSet fs0 env.tempDir .dir) i
    (resolveOutput i o) env.tempDir hund1 hout
  have hc := cleanup_lookups env
    (tryBody env (fsSet fs0 env.tempDir .dir) i (resolveOutput i o) env.tempDir).fs
    env.tempDir hrm hrd hb
  rw [png_fs_cleanup env fs0 i o hex]
  exact hc

/-- C1: a successful call returns the caller-supplied output path when one
is given, and otherwise the input path with its extension replaced by
`.svg` (`splitext` root plus `.svg`). -/
theorem output_path_resolution (env : Env) (fs0 : FS) (i : String) (o : Option String)
    (k : Bool) (p : String)
    (h : (png_to_svg env fs0 i o k).result = .ok p) :
    p = resolveOutput i o ∧
    (o = none → p = (splitext i).1 ++ ".svg") ∧
    (∀ q, o = some q → p = q) := by
  by_cases hex : osPathExists fs0 i = true
  · obtain ⟨hr, _, _, _⟩ := png_to_svg_components env fs0 i o k hex
    rw [hr] at h
    have hp := tryBody_result_ok _ _ _ _ _ _ h
    refine ⟨hp, ?_, ?_⟩
    · intro ho
      rw [hp, ho]
      rfl
    · intro q hq
      rw [hp, hq]
      rfl
  · have hc : osPathExists fs0 i = false := by
      cases hv : osPathExists fs0 i
      · rfl
      · exact absurd hv hex
    rw [png_to_svg, if_pos hc] at h
    cases h

/-- C1 witness: a concrete successful conversion of `photo.png` with no
output path supplied returns `photo.svg`. -/
theorem output_path_resolution_check :
    (png_to_svg testEnv testFS "photo.png" none false).result = .ok "photo.svg" ∧
    ("photo.svg" = resolveOutput "photo.png" none ∧
     (none = (none : Option String) → "photo.svg" = (splitext "photo.png").1 ++ ".svg") ∧
     (∀ q, (none : Option String) = some q → "photo.svg" = q)) :=
  ⟨by decide, output_path_resolution testEnv testFS "photo.png" none false "photo.svg" (by decide)⟩

/-- C4: when the input path does not exist the call fails with the
`NotFound` error and performs nothing at all: no scratch directory is
created, the filesystem is untouched, nothing is printed. -/
theorem missing_input_no_scratch (env : Env) (fs0 : FS) (i : String) (o : Option String)
    (k : Bool) (h : osPathExists fs0 i = false) :
    png_to_svg env fs0 i o k =
      ⟨.error (.fileNotFoundError ("Input file not found: " ++ i)), fs0, [], false, none, 0⟩ := by
  rw [png_to_svg, if_pos h]

/-- C4 witness: a concrete nonexistent input. -/
theorem missing_input_no_scratch_check :
    osPathExists testFS "missing.png" = false ∧
    png_to_svg testEnv testFS "missing.png" none false =
      ⟨.error (.fileNotFoundError "Input file not found: missing.png"), testFS, [], false, none, 0⟩ :=
  ⟨by decide, missing_input_no_scratch testEnv testFS "missing.png" none false (by decide)⟩

/-- C9: the precondition check only tests existence, so an existing
directory passes it; the scratch directory does get created and the call
then fails at the decode step (`IsADirectoryError`, not the NotFound error
of the precondition). -/
theorem directory_input_decode_step (env : Env) (fs0 : FS) (i : String) (o : Option String)
    (k : Bool) (h : fsLookup fs0 i = some .dir) :
    (png_to_svg env fs0 i o k).result = .error (.isADirectoryError ("Is a directory: " ++ i)) ∧
    (png_to_svg env fs0 i o k).tempDirCreated = true := by
  have hex : osPathExists fs0 i = true := by rw [osPathExists, h]; rfl
  obtain ⟨hr, _, _, htc⟩ := png_to_svg_components env fs0 i o k hex
  have hop : openImage env (fsSet fs0 env.tempDir .dir) i =
      .error (.isADirectoryError ("Is a directory: " ++ i)) := by
    by_cases hitd : i = env.tempDir
    · apply openImage_dir
      rw [hitd, fsLookup_fsSet_self]
    · apply openImage_dir
      rw [fsLookup_fsSet_ne _ _ _ _ hitd]
      exact h
  refine ⟨?_, htc⟩
  rw [hr]
  simp [tryBody, hop]

/-- C9 witness: a concrete existing directory as input. -/
theorem directory_input_decode_step_check :
    fsLookup [("somedir", Entry.dir)] "somedir" = some .dir ∧
    ((png_to_svg testEnv [("somedir", Entry.dir)] "somedir" none false).result =
        .error (.isADirectoryError "Is a directory: somedir") ∧
     (png_to_svg testEnv [("somedir", Entry.dir)] "somedir" none false).tempDirCreated = true) :=
  ⟨by decide, directory_input_decode_step testEnv [("somedir", Entry.dir)] "somedir" none false (by decide)⟩

/-- C2: for every decodable input the image persisted as the intermediate
bitmap is single-channel grayscale; a non-grayscale image is converted with
the library's grayscale conversion, and an already-grayscale image is
persisted unchanged, pixel-identical to the decoded source. -/
theorem grayscale_normalization (env : Env) (fs0 : FS) (i : String) (o : Option String)
    (k : Bool) (bs : List Nat) (src : Image)
    (hf : fsLookup fs0 i = some (.file bs))
    (hd : env.decode bs = some src)
    (htd : fsLookup fs0 env.tempDir = none)
    (hconv : ∀ j, (env.convertL j).mode = "L") :
    ∃ img, (png_to_svg env fs0 i o k).persisted = some img ∧
      img.mode = "L" ∧
      (src.mode = "L" → img = src) ∧
      (src.mode ≠ "L" → img = env.convertL src) := by
  have hitd : i ≠ env.tempDir := ne_of_lookup_some_none hf htd
  have hex : osPathExists fs0 i = true := by rw [osPathExists, hf]; rfl
  have hf1 : fsLookup (fsSet fs0 env.tempDir .dir) i = some (.file bs) := by
    rw [fsLookup_fsSet_ne _ _ _ _ hitd]
    exact hf
  have hop := openImage_file hf1 hd
  obtain ⟨_, hp, _, _⟩ := png_to_svg_components env fs0 i o k hex
  refine ⟨normalizeGray env src, ?_, ?_, ?_, ?_⟩
  · rw [hp]
    exact tryBody_persisted_ok _ _ _ _ _ _ hop
  · rw [normalizeGray]
    by_cases hm : src.mode = "L"
    · rw [if_neg (by simp [hm])]
      exact hm
    · rw [if_pos (by simp [hm])]
      exact hconv src
  · intro hm
    rw [normalizeGray, if_neg (by simp [hm])]
  · intro hm
    rw [normalizeGray, if_pos (by simp [hm])]

/-- C2 witness: a concrete color input is persisted as its grayscale
conversion; instantiated at `photo.png`, whose bytes decode to an RGB
image. -/
theorem grayscale_normalization_check :
    (fsLookup testFS "photo.png" = some (.file [10]) ∧
     testEnv.decode [10] = some imgRGB ∧
     fsLookup testFS testEnv.tempDir = none ∧
     (∀ j, (testEnv.convertL j).mode = "L")) ∧
    ∃ img, (png_to_svg testEnv testFS "photo.png" none false).persisted = some img ∧
      img.mode = "L" ∧
      (imgRGB.mode = "L" → img = imgRGB) ∧
      (imgRGB.mode ≠ "L" → img = testEnv.convertL imgRGB) :=
  ⟨⟨by decide, by decide, by decide, fun j => rfl⟩,
    grayscale_normalization testEnv testFS "photo.png" none false [10] imgRGB
      (by decide) (by decide) (by decide) (fun j => rfl)⟩

/-- C3: a non-zero exit of the external tool makes the call fail with the
subprocess error carrying that exit status; the tool is invoked exactly
once (no retry), partial output the tool left at the target path stays
there (no rollback), and the scratch directory is cleaned up (absent
retention) before the error propagates. -/
theorem tool_failure_propagates (env : Env) (fs0 : FS) (i : String) (o : Option String)
    (bs : List Nat) (src : Image) (rc : Nat) (wout : Option (List Nat))
    (hf : fsLookup fs0 i = some (.file bs))
    (hd : env.decode bs = some src)
    (hinst : env.potraceInstalled = true)
    (hpr : env.potrace (env.encodeBMP (normalizeGray env src)) = ⟨rc, wout⟩)
    (hrc : ¬ rc = 0)
    (hok : CleanupOK env fs0 (resolveOutput i o)) :
    (png_to_svg env fs0 i o false).result = .error (.calledProcessError rc) ∧
    (png_to_svg env fs0 i o false).toolCalls = 1 ∧
    fsLookup (png_to_svg env fs0 i o false).fs (joinPath env.tempDir "temp.bmp") = none ∧
    fsLookup (png_to_svg env fs0 i o false).fs env.tempDir = none ∧
    (∀ obs, wout = some obs →
      fsLookup (png_to_svg env fs0 i o false).fs (resolveOutput i o) = some (.file obs)) := by
  have hex : osPathExists fs0 i = true := by rw [osPathExists, hf]; rfl
  have hclean := scratch_cleaned env fs0 i o hok hex
  obtain ⟨hrm, hrd, htd, hbmp, hund, hout, houttd⟩ := hok
  have houtb : resolveOutput i o ≠ joinPath env.tempDir "temp.bmp" := by
    intro hh
    rw [hh, strStartsWith_joinPath] at hout
    cases hout
  have hitd : i ≠ env.tempDir := ne_of_lookup_some_none hf htd
  have hf1 : fsLookup (fsSet fs0 env.tempDir .dir) i = some (.file bs) := by
    rw [fsLookup_fsSet_ne _ _ _ _ hitd]
    exact hf
  have hop := openImage_file hf1 hd
  obtain ⟨hr, _, htc, _⟩ := png_to_svg_components env fs0 i o false hex
  have hres : (tryBody env (fsSet fs0 env.tempDir .dir) i (resolveOutput i o)
      env.tempDir).result = .error (.calledProcessError rc) := by
    rw [tryBody_ok_eq env _ i _ _ src hop]
    dsimp only
    rw [if_pos hinst, hpr]
    dsimp only
    rw [if_neg hrc]
  have htool : (tryBody env (fsSet fs0 env.tempDir .dir) i (resolveOutput i o)
      env.tempDir).toolCalls = 1 := by
    rw [tryBody_ok_eq env _ i _ _ src hop]
    dsimp only
    rw [if_pos hinst, hpr]
    dsimp only
    rw [if_neg hrc]
  refine ⟨?_, ?_, hclean.1, hclean.2, ?_⟩
  · rw [hr]
    exact hres
  · rw [htc]
    exact htool
  · intro obs hobs
    have hfs : (tryBody env (fsSet fs0 env.tempDir .dir) i (resolveOutput i o)
        env.tempDir).fs =
        fsSet (fsSet (fsSet fs0 env.tempDir .dir) (joinPath env.tempDir "temp.bmp")
          (.file (env.encodeBMP (normalizeGray env src)))) (resolveOutput i o)
          (.file obs) := by
      rw [tryBody_ok_eq env _ i _ _ src hop]
      dsimp only
      rw [if_pos hinst, hpr, hobs]
      dsimp only
      rw [if_neg hrc]
    rw [png_fs_cleanup env fs0 i o hex,
      cleanupTemp_frame _ _ _ _ houtb houttd, hfs, fsLookup_fsSet_self]

/-- C3 witness: a concrete tool that exits with status 3 after writing
partial bytes. -/
theorem tool_failure_propagates_check :
    (fsLookup testFS "photo.png" = some (.file [10]) ∧
     Env.decode { testEnv with potrace := fun _ => ⟨3, some [9]⟩ } [10] = some imgRGB ∧
     Env.potraceInstalled { testEnv with potrace := fun _ => ⟨3, some [9]⟩ } = true ∧
     ¬ (3 : Nat) = 0) ∧
    ((png_to_svg { testEnv with potrace := fun _ => ⟨3, some [9]⟩ } testFS "photo.png" none false).result =
        .error (.calledProcessError 3) ∧
     (png_to_svg { testEnv with potrace := fun _ => ⟨3, some [9]⟩ } testFS "photo.png" none false).toolCalls = 1 ∧
     fsLookup (png_to_svg { testEnv with potrace := fun _ => ⟨3, some [9]⟩ } testFS "photo.png" none false).fs
        (joinPath (Env.tempDir { testEnv with potrace := fun _ => ⟨3, some [9]⟩ }) "temp.bmp") = none ∧
     fsLookup (png_to_svg { testEnv with potrace := fun _ => ⟨3, some [9]⟩ } testFS "photo.png" none false).fs
        (Env.tempDir { testEnv with potrace := fun _ => ⟨3, some [9]⟩ }) = none ∧
     (∀ obs, (some [9] : Option (List Nat)) = some obs →
        fsLookup (png_to_svg { testEnv with potrace := fun _ => ⟨3, some [9]⟩ } testFS "photo.png" none false).fs
          (resolveOutput "photo.png" none) = some (.file obs))) :=
  ⟨⟨by decide, by decide, by decide, by decide⟩,
    tool_failure_propagates { testEnv with potrace := fun _ => ⟨3, some [9]⟩ }
      testFS "photo.png" none [10] imgRGB 3 (some [9])
      (by decide) (by decide) (by decide) (by decide) (by decide) (by decide)⟩

/-- C5 counterexample: a call that reaches scratch-directory creation with
retention requested, yet after the call no intermediate bitmap file exists
inside the retained scratch directory — the input exists but cannot be
decoded, so execution never reached the persist step. -/
theorem retention_missing_bitmap_cx :
    (png_to_svg testEnv [("bad.txt", Entry.file [99])] "bad.txt" none true).tempDirCreated = true ∧
    fsLookup (png_to_svg testEnv [("bad.txt", Entry.file [99])] "bad.txt" none true).fs
      testEnv.tempDir = some .dir ∧
    fsLookup (png_to_svg testEnv [("bad.txt", Entry.file [99])] "bad.txt" none true).fs
      (joinPath testEnv.tempDir "temp.bmp") = none := by
  exact ⟨by decide, by decide, by decide⟩

/-- C5 (amended): for every call that reaches scratch-workspace creation,
with the cleanup operations themselves succeeding and the scratch name
fresh: without retention neither the bitmap nor the scratch directory
remains; with retention the scratch directory remains, and the intermediate
bitmap inside it exists exactly when the conversion reached the persist
step (on a decode failure it was never created). -/
theorem scratch_lifecycle_amended (env : Env) (fs0 : FS) (i : String) (o : Option String)
    (k : Bool)
    (hex : osPathExists fs0 i = true)
    (hok : CleanupOK env fs0 (resolveOutput i o)) :
    (k = false →
      fsLookup (png_to_svg env fs0 i o k).fs (joinPath env.tempDir "temp.bmp") = none ∧
      fsLookup (png_to_svg env fs0 i o k).fs env.tempDir = none) ∧
    (k = true →
      fsLookup (png_to_svg env fs0 i o k).fs env.tempDir = some .dir ∧
      (∀ img, (png_to_svg env fs0 i o k).persisted = some img →
        fsLookup (png_to_svg env fs0 i o k).fs (joinPath env.tempDir "temp.bmp") =
          some (.file (env.encodeBMP img))) ∧
      ((png_to_svg env fs0 i o k).persisted = none →
        fsLookup (png_to_svg env fs0 i o k).fs (joinPath env.tempDir "temp.bmp") = none)) := by
  obtain ⟨hrm, hrd, htd, hbmp, hund, hout, houttd⟩ := id hok
  have houtb : resolveOutput i o ≠ joinPath env.tempDir "temp.bmp" := by
    intro hh
    rw [hh, strStartsWith_joinPath] at hout
    cases hout
  constructor
  · intro hk
    subst hk
    exact scratch_cleaned env fs0 i o hok hex
  · intro hk
    subst hk
    obtain ⟨_, hp, _, _⟩ := png_to_svg_components env fs0 i o true hex
    rw [png_fs_keep env fs0 i o hex]
    refine ⟨?_, ?_, ?_⟩
    · rw [tryBody_frame _ _ _ _ _ _ (Ne.symm (joinPath_ne_base _ _)) (Ne.symm houttd),
        fsLookup_fsSet_self]
    · intro img hpi
      rw [hp] at hpi
      exact tryBody_persisted_bmp _ _ _ _ _ _ houtb hpi
    · intro hpi
      rw [hp] at hpi
      rw [tryBody_persisted_none _ _ _ _ _ hpi,
        fsLookup_fsSet_ne _ _ _ _ (joinPath_ne_base _ _)]
      exact hbmp

/-- C5 witness: concrete successful conversion without retention. -/
theorem scratch_lifecycle_amended_check :
    (osPathExists testFS "photo.png" = true ∧
     CleanupOK testEnv testFS (resolveOutput "photo.png" none)) ∧
    ((false = false →
      fsLookup (png_to_svg testEnv testFS "photo.png" none false).fs
        (joinPath testEnv.tempDir "temp.bmp") = none ∧
      fsLookup (png_to_svg testEnv testFS "photo.png" none false).fs testEnv.tempDir = none) ∧
     (false = true →
      fsLookup (png_to_svg testEnv testFS "photo.png" none false).fs testEnv.tempDir = some .dir ∧
      (∀ img, (png_to_svg testEnv testFS "photo.png" none false).persisted = some img →
        fsLookup (png_to_svg testEnv testFS "photo.png" none false).fs
          (joinPath testEnv.tempDir "temp.bmp") = some (.file (testEnv.encodeBMP img))) ∧
      ((png_to_svg testEnv testFS "photo.png" none false).persisted = none →
        fsLookup (png_to_svg testEnv testFS "photo.png" none false).fs
          (joinPath testEnv.tempDir "temp.bmp") = none))) :=
  ⟨⟨by decide, by decide⟩,
    scratch_lifecycle_amended testEnv testFS "photo.png" none false (by decide) (by decide)⟩

/-- C7 counterexample: with the tool executable missing, the call fails
with `FileNotFoundError` — the same exception class as a missing input
file — not with the exit-status-carrying subprocess error raised on a
non-zero exit, so the two situations are NOT the same error category. -/
theorem missing_tool_error_class_cx :
    (png_to_svg { testEnv with potraceInstalled := false } testFS "photo.png" none false).result =
      .error (.fileNotFoundError potraceMissingMsg) ∧
    isCalledProcessError
      (png_to_svg { testEnv with potraceInstalled := false } testFS "photo.png" none false).result
      = false := by
  exact ⟨by decide, by decide⟩

/-- C7 (amended): a missing tool executable makes the call fail with the
OS-level `FileNotFoundError` naming the tool (no exit status attached, a
different class from the non-zero-exit subprocess error); the tool is never
run and the scratch workspace is still cleaned up. -/
theorem missing_tool_amended (env : Env) (fs0 : FS) (i : String) (o : Option String)
    (bs : List Nat) (src : Image)
    (hf : fsLookup fs0 i = some (.file bs))
    (hd : env.decode bs = some src)
    (hinst : env.potraceInstalled = false)
    (hok : CleanupOK env fs0 (resolveOutput i o)) :
    (png_to_svg env fs0 i o false).result = .error (.fileNotFoundError potraceMissingMsg) ∧
    (png_to_svg env fs0 i o false).toolCalls = 0 ∧
    fsLookup (png_to_svg env fs0 i o false).fs (joinPath env.tempDir "temp.bmp") = none ∧
    fsLookup (png_to_svg env fs0 i o false).fs env.tempDir = none := by
  have hex : osPathExists fs0 i = true := by rw [osPathExists, hf]; rfl
  have hclean := scratch_cleaned env fs0 i o hok hex
  obtain ⟨hrm, hrd, htd, hbmp, hund, hout, houttd⟩ := hok
  have hitd : i ≠ env.tempDir := ne_of_lookup_some_none hf htd
  have hf1 : fsLookup (fsSet fs0 env.tempDir .dir) i = some (.file bs) := by
    rw [fsLookup_fsSet_ne _ _ _ _ hitd]
    exact hf
  have hop := openImage_file hf1 hd
  obtain ⟨hr, _, htc, _⟩ := png_to_svg_components env fs0 i o false hex
  have hni : ¬ (env.potraceInstalled = true) := by rw [hinst]; simp
  refine ⟨?_, ?_, hclean.1, hclean.2⟩
  · rw [hr, tryBody_ok_eq env _ i _ _ src hop]
    dsimp only
    rw [if_neg hni]
  · rw [htc, tryBody_ok_eq env _ i _ _ src hop]
    dsimp only
    rw [if_neg hni]

/-- C7 witness: the amended behavior at a concrete input. -/
theorem missing_tool_amended_check :
    (fsLookup testFS "photo.png" = some (.file [10]) ∧
     Env.potraceInstalled { testEnv with potraceInstalled := false } = false) ∧
    ((png_to_svg { testEnv with potraceInstalled := false } testFS "photo.png" none false).result =
        .error (.fileNotFoundError potraceMissingMsg) ∧
     (png_to_svg { testEnv with potraceInstalled := false } testFS "photo.png" none false).toolCalls = 0 ∧
     fsLookup (png_to_svg { testEnv with potraceInstalled := false } testFS "photo.png" none false).fs
        (joinPath (Env.tempDir { testEnv with potraceInstalled := false }) "temp.bmp") = none ∧
     fsLookup (png_to_svg { testEnv with potraceInstalled := false } testFS "photo.png" none false).fs
        (Env.tempDir { testEnv with potraceInstalled := false }) = none) :=
  ⟨⟨by decide, by decide⟩,
    missing_tool_amended { testEnv with potraceInstalled := false } testFS "photo.png" none
      [10] imgRGB (by decide) (by decide) (by decide) (by decide)⟩

/-- C8: an existing input whose bytes cannot be decoded makes the call fail
with the decode error, after the scratch workspace was created, and the
scratch workspace is still cleaned up (absent retention) before the error
propagates. -/
theorem undecodable_input_cleanup (env : Env) (fs0 : FS) (i : String) (o : Option String)
    (bs : List Nat)
    (hf : fsLookup fs0 i = some (.file bs))
    (hd : env.decode bs = none)
    (hok : CleanupOK env fs0 (resolveOutput i o)) :
    (png_to_svg env fs0 i o false).result =
      .error (.unidentifiedImageError ("cannot identify image file " ++ i)) ∧
    (png_to_svg env fs0 i o false).tempDirCreated = true ∧
    fsLookup (png_to_svg env fs0 i o false).fs (joinPath env.tempDir "temp.bmp") = none ∧
    fsLookup (png_to_svg env fs0 i o false).fs env.tempDir = none := by
  have hex : osPathExists fs0 i = true := by rw [osPathExists, hf]; rfl
  have hclean := scratch_cleaned env fs0 i o hok hex
  obtain ⟨hrm, hrd, htd, hbmp, hund, hout, houttd⟩ := hok
  have hitd : i ≠ env.tempDir := ne_of_lookup_some_none hf htd
  have hf1 : fsLookup (fsSet fs0 env.tempDir .dir) i = some (.file bs) := by
    rw [fsLookup_fsSet_ne _ _ _ _ hitd]
    exact hf
  have hop := openImage_undecodable hf1 hd
  obtain ⟨hr, _, _, htdc⟩ := png_to_svg_components env fs0 i o false hex
  refine ⟨?_, htdc, hclean.1, hclean.2⟩
  rw [hr]
  simp [tryBody, hop]

/-- C8 witness: concrete undecodable bytes. -/
theorem undecodable_input_cleanup_check :
    (fsLookup [("bad.txt", Entry.file [99])] "bad.txt" = some (.file [99]) ∧
     testEnv.decode [99] = none) ∧
    ((png_to_svg testEnv [("bad.txt", Entry.file [99])] "bad.txt" none false).result =
        .error (.unidentifiedImageError "cannot identify image file bad.txt") ∧
     (png_to_svg testEnv [("bad.txt", Entry.file [99])] "bad.txt" none false).tempDirCreated = true ∧
     fsLookup (png_to_svg testEnv [("bad.txt", Entry.file [99])] "bad.txt" none false).fs
        (joinPath testEnv.tempDir "temp.bmp") = none ∧
     fsLookup (png_to_svg testEnv [("bad.txt", Entry.file [99])] "bad.txt" none false).fs
        testEnv.tempDir = none) :=
  ⟨⟨by decide, by decide⟩,
    undecodable_input_cleanup testEnv [("bad.txt", Entry.file [99])] "bad.txt" none [99]
      (by decide) (by decide) (by decide)⟩

theorem png_stdout_cleanup (env : Env) (fs0 : FS) (i : String) (o : Option String)
    (hex : osPathExists fs0 i = true) :
    (png_to_svg env fs0 i o false).stdout =
      (match (tryBody env (fsSet fs0 env.tempDir .dir) i (resolveOutput i o) env.tempDir).result with
        | .ok _ =>
          (tryBody env (fsSet fs0 env.tempDir .dir) i (resolveOutput i o) env.tempDir).out
        | .error e =>
          (tryBody env (fsSet fs0 env.tempDir .dir) i (resolveOutput i o) env.tempDir).out ++
            ["Error during conversion: " ++ e.text]) ++
      (cleanupTemp env
        (tryBody env (fsSet fs0 env.tempDir .dir) i (resolveOutput i o) env.tempDir).fs
        env.tempDir).2 := by
  have hc : ¬ (osPathExists fs0 i = false) := by rw [hex]; simp
  rw [png_to_svg, if_neg hc]
  rfl

/-- C6: failure of the cleanup itself is caught and surfaced only as a
printed warning: the call's outcome (returned path or prior raised error)
is exactly the outcome it has under an environment where cleanup succeeds,
and the warning line appears on standard output. -/
theorem cleanup_failure_nonfatal (env : Env) (f g : String → Bool) (fs0 : FS) (i : String)
    (o : Option String) (bs : List Nat) (src : Image)
    (hf : fsLookup fs0 i = some (.file bs))
    (hd : env.decode bs = some src)
    (htd : fsLookup fs0 env.tempDir = none)
    (houtb : resolveOutput i o ≠ joinPath env.tempDir "temp.bmp")
    (hfail : f (joinPath env.tempDir "temp.bmp") = true) :
    (png_to_svg { env with removeFails := f, rmdirFails := g } fs0 i o false).result =
      (png_to_svg env fs0 i o false).result ∧
    ("Warning: Could not clean up temporary files: " ++
        ("Permission denied: " ++ joinPath env.tempDir "temp.bmp")) ∈
      (png_to_svg { env with removeFails := f, rmdirFails := g } fs0 i o false).stdout := by
  have hex : osPathExists fs0 i = true := by rw [osPathExists, hf]; rfl
  have hitd : i ≠ env.tempDir := ne_of_lookup_some_none hf htd
  have hf1 : fsLookup (fsSet fs0 env.tempDir .dir) i = some (.file bs) := by
    rw [fsLookup_fsSet_ne _ _ _ _ hitd]
    exact hf
  have hop : openImage env (fsSet fs0 env.tempDir .dir) i = .ok src :=
    openImage_file hf1 hd
  have htdp : Env.tempDir { env with removeFails := f, rmdirFails := g } = env.tempDir := rfl
  have htb : tryBody { env with removeFails := f, rmdirFails := g }
      (fsSet fs0 env.tempDir .dir) i (resolveOutput i o) env.tempDir =
      tryBody env (fsSet fs0 env.tempDir .dir) i (resolveOutput i o) env.tempDir := rfl
  have hpers := tryBody_persisted_ok env (fsSet fs0 env.tempDir .dir) i
    (resolveOutput i o) env.tempDir src hop
  have hbl := tryBody_persisted_bmp env (fsSet fs0 env.tempDir .dir) i
    (resolveOutput i o) env.tempDir (normalizeGray env src) houtb hpers
  have hbex : osPathExists
      (tryBody env (fsSet fs0 env.tempDir .dir) i (resolveOutput i o) env.tempDir).fs
      (joinPath env.tempDir "temp.bmp") = true := by
    rw [osPathExists, hbl]
    rfl
  have hclean : cleanupTemp { env with removeFails := f, rmdirFails := g }
      (tryBody env (fsSet fs0 env.tempDir .dir) i (resolveOutput i o) env.tempDir).fs
      env.tempDir =
      ((tryBody env (fsSet fs0 env.tempDir .dir) i (resolveOutput i o) env.tempDir).fs,
        ["Warning: Could not clean up temporary files: " ++
          ("Permission denied: " ++ joinPath env.tempDir "temp.bmp")]) := by
    rw [cleanupTemp, if_pos hbex, osRemove, if_pos hfail]
    rfl
  constructor
  · obtain ⟨hr1, _, _, _⟩ := png_to_svg_components
      { env with removeFails := f, rmdirFails := g } fs0 i o false hex
    obtain ⟨hr2, _, _, _⟩ := png_to_svg_components env fs0 i o false hex
    rw [htdp, htb] at hr1
    rw [hr1, hr2]
  · rw [png_stdout_cleanup { env with removeFails := f, rmdirFails := g } fs0 i o hex,
      htdp, htb, hclean]
    simp

/-- C6 witness: cleanup made to fail at the bitmap removal on a concrete
successful conversion. -/
theorem cleanup_failure_nonfatal_check :
    (fsLookup testFS "photo.png" = some (.file [10]) ∧
     testEnv.decode [10] = some imgRGB ∧
     resolveOutput "photo.png" none ≠ joinPath testEnv.tempDir "temp.bmp" ∧
     (fun _ : String => true) (joinPath testEnv.tempDir "temp.bmp") = true) ∧
    ((png_to_svg { testEnv with removeFails := fun _ => true, rmdirFails := fun _ => false }
        testFS "photo.png" none false).result =
      (png_to_svg testEnv testFS "photo.png" none false).result ∧
    ("Warning: Could not clean up temporary files: " ++
        ("Permission denied: " ++ joinPath testEnv.tempDir "temp.bmp")) ∈
      (png_to_svg { testEnv with removeFails := fun _ => true, rmdirFails := fun _ => false }
        testFS "photo.png" none false).stdout) :=
  ⟨⟨by decide, by decide, by decide, rfl⟩,
    cleanup_failure_nonfatal testEnv (fun _ => true) (fun _ => false) testFS "photo.png" none
      [10] imgRGB (by decide) (by decide) (by decide) (by decide) rfl⟩

/-- C10 counterexample: converting a file named `photo.svg` with no output
path supplied resolves the output path to the input path itself, and the
external tool overwrites the input file: its contents change from `[7]` to
the tool's output `[42]`. -/
theorem input_overwrite_cx :
    (png_to_svg testEnv [("photo.svg", Entry.file [7])] "photo.svg" none false).result =
      .ok "photo.svg" ∧
    fsLookup [("photo.svg", Entry.file [7])] "photo.svg" = some (.file [7]) ∧
    fsLookup (png_to_svg testEnv [("photo.svg", Entry.file [7])] "photo.svg" none false).fs
      "photo.svg" = some (.file [42]) := by
  exact ⟨by decide, by decide, by decide⟩

/-- C10 (amended): the input file is never modified provided the resolved
output path is distinct from the input path (writes go only to the scratch
workspace and the resolved output path, and the scratch paths are fresh):
after any call, success or failure, with or without retention, the entry at
the input path is unchanged. -/
theorem input_preserved_amended (env : Env) (fs0 : FS) (i : String) (o : Option String)
    (k : Bool)
    (h1 : i ≠ resolveOutput i o)
    (h2 : i ≠ joinPath env.tempDir "temp.bmp")
    (h3 : i ≠ env.tempDir) :
    fsLookup (png_to_svg env fs0 i o k).fs i = fsLookup fs0 i := by
  by_cases hex : osPathExists fs0 i = true
  · cases k with
    | false =>
      rw [png_fs_cleanup env fs0 i o hex,
        cleanupTemp_frame _ _ _ _ h2 h3,
        tryBody_frame _ _ _ _ _ _ h2 h1,
        fsLookup_fsSet_ne _ _ _ _ h3]
    | true =>
      rw [png_fs_keep env fs0 i o hex,
        tryBody_frame _ _ _ _ _ _ h2 h1,
        fsLookup_fsSet_ne _ _ _ _ h3]
  · have hc : osPathExists fs0 i = false := by
      cases hv : osPathExists fs0 i
      · rfl
      · exact absurd hv hex
    rw [png_to_svg, if_pos hc]

/-- C10 witness: a concrete conversion whose output path differs from the
input path leaves the input entry unchanged. -/
theorem input_preserved_amended_check :
    ("photo.png" ≠ resolveOutput "photo.png" none ∧
     "photo.png" ≠ joinPath testEnv.tempDir "temp.bmp" ∧
     "photo.png" ≠ testEnv.tempDir) ∧
    fsLookup (png_to_svg testEnv testFS "photo.png" none false).fs "photo.png" =
      fsLookup testFS "photo.png" :=
  ⟨⟨by decide, by decide, by decide⟩,
    input_preserved_amended testEnv testFS "photo.png" none false
      (by decide) (by decide) (by decide)⟩

example : splitext "photo.png" = ("photo", ".png") := by decide
example : splitext ".bashrc" = (".bashrc", "") := by decide
example : splitext "a.b/c" = ("a.b/c", "") := by decide
example : resolveOutput "photo.png" none = "photo.svg" := by decide
example : (png_to_svg testEnv testFS "photo.png" none false).result =
    .ok "photo.svg" := by decide
